import Mathlib

/-!
Verification of the eversaid backend's rate-limiting engine
(`src/backend/app/rate_limit.py`) and session lifecycle manager
(`src/backend/app/session.py`), shallowly embedded in Lean.

Conventions of the embedding:
* timestamps are integer Unix seconds (`Int`); `datetime.utcnow()` becomes a
  `now : Int` parameter, `timedelta(hours=1)` becomes `3600`, `timedelta(days=1)`
  becomes `86400`;
* the relational store is a list of committed rows; SQLAlchemy counting queries
  become list filters; `db.add` + `db.commit` becomes appending to the list;
* Python `Optional[str]` becomes `Option String`, and Python truthiness
  (`if session_id:`), under which both `None` and `""` are falsy, is modeled
  explicitly;
* fallible Python code (exceptions) returns `Option` / `Except`.
-/

namespace Eversaid

/-- One row of the `rate_limit_entries` table (`models.RateLimitEntry`):
owning session id (nullable), IP address (nullable), action tag, creation time. -/
structure RateLimitEntry where
  session_id : Option String
  ip_address : Option String
  action : String
  created_at : Int
deriving DecidableEq, Repr

/-- Python truthiness of an `Optional[str]` value: `None` and `""` are falsy. -/
def truthyStr : Option String → Bool
  | none => false
  | some s => !(s == "")

/-- The row filter of `RateLimitTracker._count_entries`: the action matches, the
row was created at or after `since`, and, when the optional `session_id` /
`ip_address` arguments are truthy (Python `if session_id:`), the corresponding
equality filters hold. -/
def entryMatches (e : RateLimitEntry) (action : String) (since : Int)
    (session_id ip_address : Option String) : Bool :=
  e.action == action && decide (since ≤ e.created_at) &&
    (if truthyStr session_id then e.session_id == session_id else true) &&
    (if truthyStr ip_address then e.ip_address == ip_address else true)

/-- `RateLimitTracker._count_entries`: count committed rows matching the filter. -/
def count_entries (db : List RateLimitEntry) (action : String) (since : Int)
    (session_id ip_address : Option String) : Nat :=
  (db.filter (fun e => entryMatches e action since session_id ip_address)).length

/-- The session-scope hourly count used by `check_and_increment`
(`_count_entries(db, action, hour_ago, session_id=session_id)`), as an integer. -/
def sessionHourCount (db : List RateLimitEntry) (a : String) (now : Int) (sid : String) : Int :=
  (count_entries db a (now - 3600) (some sid) none : Int)

/-- The session-scope daily count used by `check_and_increment`. -/
def sessionDayCount (db : List RateLimitEntry) (a : String) (now : Int) (sid : String) : Int :=
  (count_entries db a (now - 86400) (some sid) none : Int)

/-- The IP-scope daily count used by `check_and_increment`. -/
def ipDayCount (db : List RateLimitEntry) (a : String) (now : Int) (ip : String) : Int :=
  (count_entries db a (now - 86400) none (some ip) : Int)

/-- The global daily count used by `check_and_increment` (no scope filter). -/
def globalDayCount (db : List RateLimitEntry) (a : String) (now : Int) : Int :=
  (count_entries db a (now - 86400) none none : Int)

/-- One tier of the `RateLimitResult` (`LimitInfo` pydantic model). -/
structure LimitInfo where
  limit : Int
  remaining : Int
  reset : Int
deriving DecidableEq, Repr

/-- The `RateLimitResult` pydantic model: verdict plus per-tier snapshot. -/
structure RateLimitResult where
  allowed : Bool
  hour : LimitInfo
  day : LimitInfo
  ip_day : LimitInfo
  global_day : LimitInfo
  exceeded_type : Option String
  retry_after : Option Int
deriving DecidableEq, Repr

/-- `config.py` `Settings`, restricted to the fields the rate limiter reads.
The class declares only the daily limits. `RATE_LIMIT_HOUR` and
`RATE_LIMIT_LLM_HOUR` are NOT declared fields of the class, although
`RateLimitTracker._get_limits` reads both: reading them on an instance raises
`AttributeError` (pydantic-settings silently drops unknown constructor
arguments rather than storing them). The two hour attributes are therefore
modeled as `Option Int`, where `none` models the missing attribute. -/
structure Settings where
  RATE_LIMIT_DAY : Int
  RATE_LIMIT_IP_DAY : Int
  RATE_LIMIT_GLOBAL_DAY : Int
  RATE_LIMIT_LLM_DAY : Int
  RATE_LIMIT_LLM_IP_DAY : Int
  RATE_LIMIT_LLM_GLOBAL_DAY : Int
  RATE_LIMIT_HOUR : Option Int
  RATE_LIMIT_LLM_HOUR : Option Int
deriving DecidableEq, Repr

/-- The `Settings` instance produced by `config.py` defaults: daily limits only;
the hour attributes do not exist on the class. -/
def default_settings : Settings :=
  ⟨20, 20, 1000, 200, 200, 10000, none, none⟩

/-- `RateLimitTracker._get_limits`: the `(hour, day, ip_day, global_day)` limit
bundle for the action, `"analyze"` selecting the LLM limits and anything else
the transcribe limits. `none` models the `AttributeError` raised when the hour
attribute is missing from the settings instance. -/
def get_limits (s : Settings) (action : String) : Option (Int × Int × Int × Int) :=
  if action == "analyze" then
    s.RATE_LIMIT_LLM_HOUR.map
      (fun h => (h, s.RATE_LIMIT_LLM_DAY, s.RATE_LIMIT_LLM_IP_DAY, s.RATE_LIMIT_LLM_GLOBAL_DAY))
  else
    s.RATE_LIMIT_HOUR.map
      (fun h => (h, s.RATE_LIMIT_DAY, s.RATE_LIMIT_IP_DAY, s.RATE_LIMIT_GLOBAL_DAY))

/-- Stable insertion into a list sorted descending by the retry component: the
new element goes before the first existing element whose retry is not larger.
Folded from the right this reproduces Python's stable
`exceeded.sort(key=lambda x: x[1], reverse=True)`. -/
def insertByRetryDesc (x : String × Int) : List (String × Int) → List (String × Int)
  | [] => [x]
  | y :: ys => if x.2 < y.2 then y :: insertByRetryDesc x ys else x :: y :: ys

/-- Stable descending sort by the retry component (Python `list.sort` with
`key=lambda x: x[1], reverse=True`, which keeps equal keys in original order). -/
def sortByRetryDesc : List (String × Int) → List (String × Int)
  | [] => []
  | x :: xs => insertByRetryDesc x (sortByRetryDesc xs)

/-- `RateLimitTracker.check_and_increment`: count the four tiers over their
trailing windows, report the per-tier snapshot with `reset = now + window`;
when at least one tier has `count >= limit`, deny with the exceeded tier of
longest `retry_after` (stable descending sort, first element) and leave the
store unchanged; otherwise stage exactly one new entry and decrement each
reported `remaining` (floored at zero). `none` models the `AttributeError`
propagating out of `_get_limits`. -/
def check_and_increment (settings : Settings) (session_id ip_address : String)
    (db : List RateLimitEntry) (action : String) (now : Int) :
    Option (RateLimitResult × List RateLimitEntry) :=
  match get_limits settings action with
  | none => none
  | some (hour_limit, day_limit, ip_day_limit, global_day_limit) =>
    let hour_count := sessionHourCount db action now session_id
    let day_count := sessionDayCount db action now session_id
    let ip_day_count := ipDayCount db action now ip_address
    let global_day_count := globalDayCount db action now
    let hour_reset := now + 3600
    let day_reset := now + 86400
    let now_ts := now
    let hour_info : LimitInfo := ⟨hour_limit, max 0 (hour_limit - hour_count), hour_reset⟩
    let day_info : LimitInfo := ⟨day_limit, max 0 (day_limit - day_count), day_reset⟩
    let ip_day_info : LimitInfo := ⟨ip_day_limit, max 0 (ip_day_limit - ip_day_count), day_reset⟩
    let global_day_info : LimitInfo :=
      ⟨global_day_limit, max 0 (global_day_limit - global_day_count), day_reset⟩
    let exceeded : List (String × Int) :=
      (if hour_limit ≤ hour_count then [("hour", hour_reset - now_ts)] else []) ++
      (if day_limit ≤ day_count then [("day", day_reset - now_ts)] else []) ++
      (if ip_day_limit ≤ ip_day_count then [("ip_day", day_reset - now_ts)] else []) ++
      (if global_day_limit ≤ global_day_count then [("global_day", day_reset - now_ts)] else [])
    match sortByRetryDesc exceeded with
    | (t, r) :: _ =>
      some (⟨false, hour_info, day_info, ip_day_info, global_day_info, some t, some r⟩, db)
    | [] =>
      let entry : RateLimitEntry := ⟨some session_id, some ip_address, action, now⟩
      some (⟨true,
        ⟨hour_info.limit, max 0 (hour_info.remaining - 1), hour_info.reset⟩,
        ⟨day_info.limit, max 0 (day_info.remaining - 1), day_info.reset⟩,
        ⟨ip_day_info.limit, max 0 (ip_day_info.remaining - 1), ip_day_info.reset⟩,
        ⟨global_day_info.limit, max 0 (global_day_info.remaining - 1), global_day_info.reset⟩,
        none, none⟩, db ++ [entry])

/-- Spec-side description used in statements: the list of
`(tier name, retry_after)` pairs for the tiers whose trailing-window count has
reached the limit, in the fixed order hour, day, ip_day, global_day, with the
window-based retry times (hour tier 3600 s, day-window tiers 86400 s). -/
def exceededList (db : List RateLimitEntry) (a : String) (now : Int) (sid ip : String)
    (hl dl il gl : Int) : List (String × Int) :=
  (if hl ≤ sessionHourCount db a now sid then [("hour", 3600)] else []) ++
  (if dl ≤ sessionDayCount db a now sid then [("day", 86400)] else []) ++
  (if il ≤ ipDayCount db a now ip then [("ip_day", 86400)] else []) ++
  (if gl ≤ globalDayCount db a now then [("global_day", 86400)] else [])

/-- An HTTP error surfaced to the transport layer (`fastapi.HTTPException`):
status code and detail string. -/
structure HTTPException where
  status_code : Int
  detail : String
deriving DecidableEq, Repr

/-- The rate-limit dependency produced by `require_rate_limit(action)`: run
`check_and_increment`; on a denied result raise `RateLimitExceeded` (modeled as
`Except.error`) with nothing committed; on an allowed result `db.commit()` the
staged entry immediately — before the endpoint body (the upstream call) runs —
and return the result. `none` models the `AttributeError` from `_get_limits`. -/
def require_rate_limit (s : Settings) (sid ip : String) (db : List RateLimitEntry)
    (a : String) (now : Int) :
    Option (Except RateLimitResult (RateLimitResult × List RateLimitEntry)) :=
  match check_and_increment s sid ip db a now with
  | none => none
  | some (res, staged) =>
    if res.allowed then some (.ok (res, staged))
    else some (.error res)

/-- Observable events of one request, in order: the rate-limit ledger commit
performed inside the dependency, and the upstream Core API call performed by
the endpoint body. -/
inductive Event where
  | ledger_commit
  | upstream_call
deriving DecidableEq, Repr

/-- Outcome of one transcribe-class request: the committed ledger after the
request, the ordered events that ran, and whether the upstream call succeeded
(`none` when it was never reached). -/
structure RequestOutcome where
  committed : List RateLimitEntry
  events : List Event
  upstream_ok : Option Bool
deriving DecidableEq, Repr

/-- The endpoint flow of `routes/core.py` `transcribe` (and `analyze`): the
rate-limit dependency runs first and commits on allow; the endpoint body then
performs the upstream call, whose failure raises before anything else touches
the ledger. (On upstream success the handler then evaluates
`request.state.rate_limit_db`, an attribute never set anywhere — a vestige of
the count-successes revision that raises `AttributeError` — which does not
alter the already-committed ledger.) -/
def handle_request (s : Settings) (sid ip : String) (db : List RateLimitEntry)
    (a : String) (now : Int) (upstreamOk : Bool) : Option RequestOutcome :=
  match require_rate_limit s sid ip db a now with
  | none => none
  | some (.error _) => some ⟨db, [], none⟩
  | some (.ok (_, committed)) =>
    some ⟨committed, [.ledger_commit, .upstream_call], some upstreamOk⟩

/-- One row of the `sessions` table (`models.Session`). -/
structure SessionModel where
  session_id : String
  core_api_email : String
  access_token : String
  refresh_token : String
  token_expires_at : Int
  created_at : Int
  expires_at : Int
  ip_address : Option String
deriving DecidableEq, Repr

/-- `core_client.CoreAPIError`: upstream status code and detail (response body
or connection-error message). -/
structure CoreAPIError where
  status_code : Int
  detail : String
deriving DecidableEq, Repr

/-- The token fields of a Core API auth response consumed by the session code. -/
structure TokenResponse where
  access_token : String
  refresh_token : String
deriving DecidableEq, Repr

/-- Outcome of the underlying HTTP POST made by `CoreAPIClient`: either a
response carrying a status code, a body text, and the token fields its JSON
would parse to, or a connection-level failure (`httpx.RequestError`). -/
inductive UpstreamOutcome where
  | response (status : Int) (body : String) (tokens : TokenResponse)
  | connError (msg : String)
deriving DecidableEq, Repr

/-- `CoreAPIClient.refresh` (and `register`/`login`, which share the shape):
`raise_for_status` turns any non-2xx response into a `CoreAPIError` carrying
that status and the response text; a connection error becomes
`CoreAPIError(503, "Core API connection error: ...")`; a 2xx response yields
the parsed tokens. -/
def CoreAPIClient.refresh (o : UpstreamOutcome) : Except CoreAPIError TokenResponse :=
  match o with
  | .response status body tokens =>
    if 200 ≤ status ∧ status ≤ 299 then .ok tokens
    else .error ⟨status, body⟩
  | .connError msg => .error ⟨503, "Core API connection error: " ++ msg⟩

/-- `session._refresh_session_tokens`: call the Core API refresh endpoint with
the stored refresh token; map a 401 to the session-expired condition, a 503 to
service-unavailable, and any other error to a generic 502 carrying the
upstream detail; on success update access token, refresh token and
`token_expires_at := now + TOKEN_EXPIRY_DAYS (7 days)` in place. -/
def refresh_session_tokens (sess : SessionModel) (upstream : UpstreamOutcome)
    (now : Int) : Except HTTPException SessionModel :=
  match CoreAPIClient.refresh upstream with
  | .error e =>
    if e.status_code = 401 then
      .error ⟨401, "Session expired. Please refresh the page."⟩
    else if e.status_code = 503 then
      .error ⟨503, "Core API service unavailable"⟩
    else
      .error ⟨502, "Failed to refresh session: " ++ e.detail⟩
  | .ok t =>
    .ok ⟨sess.session_id, sess.core_api_email, t.access_token, t.refresh_token,
      now + 7 * 86400, sess.created_at, sess.expires_at, sess.ip_address⟩

/-- `session._create_anonymous_session`: register and log in a synthetic
identity against the Core API (outcomes supplied as oracles, `uuid4()` as the
`freshId` parameter); a `CoreAPIError` 503 surfaces as service-unavailable and
any other as a 502; on success a new row is appended with
`token_expires_at = now + 7 days` and `expires_at = now + SESSION_DURATION_DAYS`. -/
def create_anonymous_session (freshId : String)
    (registerOutcome : Except CoreAPIError Unit)
    (loginOutcome : Except CoreAPIError TokenResponse)
    (db : List SessionModel) (session_duration_days : Int) (now : Int)
    (ip : Option String) : Except HTTPException (SessionModel × List SessionModel) :=
  let upstream : Except CoreAPIError TokenResponse :=
    match registerOutcome with
    | .error e => .error e
    | .ok _ => loginOutcome
  match upstream with
  | .error e =>
    if e.status_code = 503 then .error ⟨503, "Core API service unavailable"⟩
    else .error ⟨502, "Failed to create session: " ++ e.detail⟩
  | .ok t =>
    let sess : SessionModel :=
      ⟨freshId, "anon-" ++ freshId ++ "@demo.eversaid.local",
        t.access_token, t.refresh_token, now + 7 * 86400, now,
        now + session_duration_days * 86400, ip⟩
    .ok (sess, db ++ [sess])

/-- Output of `get_or_create_session`: the session returned to the caller, the
resulting sessions table, the list of refresh-token arguments of the Core API
refresh calls made (in order), whether the creation path ran, and whether a
new cookie was set. -/
structure ResolveOutput where
  session : SessionModel
  db : List SessionModel
  refresh_calls : List String
  created : Bool
  cookie_set : Bool
deriving DecidableEq, Repr

/-- `session.get_or_create_session` (aliased `get_session`): resolve the
caller's session from the cookie. A truthy cookie whose row exists is checked
for expiry (`expires_at < now`: delete the row and re-enter the creation
path), then for token staleness (`token_expires_at < now + 1 hour`: refresh
via the Core API and persist in place), else returned unchanged. A missing or
falsy cookie, or a cookie with no matching row, enters the creation path.
`refreshFn` is the Core API refresh oracle, keyed by the refresh token sent. -/
def get_or_create_session (cookie : Option String) (ip : Option String)
    (db : List SessionModel) (session_duration_days : Int) (now : Int)
    (freshId : String) (registerOutcome : Except CoreAPIError Unit)
    (loginOutcome : Except CoreAPIError TokenResponse)
    (refreshFn : String → UpstreamOutcome) : Except HTTPException ResolveOutput :=
  let viaCreate : Except HTTPException ResolveOutput :=
    match create_anonymous_session freshId registerOutcome loginOutcome db
        session_duration_days now ip with
    | .error e => .error e
    | .ok (sess, db2) => .ok ⟨sess, db2, [], true, true⟩
  match cookie with
  | none => viaCreate
  | some sid =>
    if sid == "" then viaCreate
    else
      match db.find? (fun r => r.session_id == sid) with
      | none => viaCreate
      | some sess =>
        if sess.expires_at < now then
          let db1 := db.filter (fun r => !(r.session_id == sess.session_id))
          match create_anonymous_session freshId registerOutcome loginOutcome db1
              session_duration_days now ip with
          | .error e => .error e
          | .ok (newSess, db2) => .ok ⟨newSess, db2, [], true, true⟩
        else if sess.token_expires_at < now + 3600 then
          match refresh_session_tokens sess (refreshFn sess.refresh_token) now with
          | .error e => .error e
          | .ok sess2 =>
            let db2 := db.map (fun r => if r.session_id == sess.session_id then sess2 else r)
            .ok ⟨sess2, db2, [sess.refresh_token], false, false⟩
        else
          .ok ⟨sess, db, [], false, false⟩

/-! ### Concrete fixtures used by witnesses -/

/-- A test configuration with all four transcribe tiers present (hour 2,
day 3, ip-day 4, global-day 5 — the limits of the spec's end-to-end
scenarios), and LLM limits 20/30/40/50. -/
def wSettings : Settings := ⟨3, 4, 5, 30, 40, 50, some 2, some 20⟩

/-- A committed transcribe entry for session `"s1"` from IP `"i1"` at time `t`. -/
def wEntry (t : Int) : RateLimitEntry := ⟨some "s1", some "i1", "transcribe", t⟩

/-- A stored session row used by the session-lifecycle witnesses. -/
def wSess (token_expires_at expires_at : Int) : SessionModel :=
  ⟨"sid1", "anon-sid1@demo.eversaid.local", "at0", "rt0",
    token_expires_at, 0, expires_at, some "9.9.9.9"⟩

/-- A Core API refresh oracle that always answers 200 with fresh tokens. -/
def wRefreshOk : String → UpstreamOutcome :=
  fun _ => UpstreamOutcome.response 200 "ok" ⟨"newat", "newrt"⟩

/-! ### Helper lemmas -/

/-- Appending one row changes a counting query by one exactly when the row
matches the query's filters. -/
theorem count_entries_append (db : List RateLimitEntry) (e : RateLimitEntry)
    (a : String) (since : Int) (so io : Option String) :
    count_entries (db ++ [e]) a since so io =
      count_entries db a since so io +
        (if entryMatches e a since so io then 1 else 0) := by
  unfold count_entries
  rw [List.filter_append]
  cases h : entryMatches e a since so io <;>
    simp [h, List.filter_cons, List.length_append]

/-- Evaluation of `check_and_increment` when no tier has reached its limit:
the check passes, each tier reports `limit - count` decremented once (floored
at zero) and `reset = now + window`, and exactly one entry for
`(action, session, ip, now)` is staged. -/
theorem check_allowed_eq (s : Settings) (sid ip : String) (db : List RateLimitEntry)
    (a : String) (now : Int) (hl dl il gl : Int)
    (hlim : get_limits s a = some (hl, dl, il, gl))
    (h1 : sessionHourCount db a now sid < hl)
    (h2 : sessionDayCount db a now sid < dl)
    (h3 : ipDayCount db a now ip < il)
    (h4 : globalDayCount db a now < gl) :
    check_and_increment s sid ip db a now =
      some (⟨true,
        ⟨hl, max 0 (max 0 (hl - sessionHourCount db a now sid) - 1), now + 3600⟩,
        ⟨dl, max 0 (max 0 (dl - sessionDayCount db a now sid) - 1), now + 86400⟩,
        ⟨il, max 0 (max 0 (il - ipDayCount db a now ip) - 1), now + 86400⟩,
        ⟨gl, max 0 (max 0 (gl - globalDayCount db a now) - 1), now + 86400⟩,
        none, none⟩, db ++ [⟨some sid, some ip, a, now⟩]) := by
  unfold check_and_increment
  rw [hlim]
  simp only [not_le.mpr h1, not_le.mpr h2, not_le.mpr h3, not_le.mpr h4,
    if_false, List.append_nil, sortByRetryDesc]

/-- Evaluation of `check_and_increment` when the session-day tier has reached
its limit: the check is denied, `exceeded_type = "day"`, `retry_after = 86400`,
and the store is unchanged, regardless of the other tiers. -/
theorem check_denied_day_eq (s : Settings) (sid ip : String) (db : List RateLimitEntry)
    (a : String) (now : Int) (hl dl il gl : Int)
    (hlim : get_limits s a = some (hl, dl, il, gl))
    (hD : dl ≤ sessionDayCount db a now sid) :
    check_and_increment s sid ip db a now =
      some (⟨false,
        ⟨hl, max 0 (hl - sessionHourCount db a now sid), now + 3600⟩,
        ⟨dl, max 0 (dl - sessionDayCount db a now sid), now + 86400⟩,
        ⟨il, max 0 (il - ipDayCount db a now ip), now + 86400⟩,
        ⟨gl, max 0 (gl - globalDayCount db a now), now + 86400⟩,
        some "day", some 86400⟩, db) := by
  unfold check_and_increment
  rw [hlim]
  by_cases hH : hl ≤ sessionHourCount db a now sid <;>
    by_cases hI : il ≤ ipDayCount db a now ip <;>
    by_cases hG : gl ≤ globalDayCount db a now <;>
    simp only [hD, hH, hI, hG, if_true, if_false, eq_self_iff_true] <;>
    simp [sortByRetryDesc, insertByRetryDesc, add_sub_cancel_left]

/-- Evaluation of `check_and_increment` when the session-day tier is under its
limit but the IP-day tier has reached its limit: the check is denied with
`exceeded_type = "ip_day"` and `retry_after = 86400`, regardless of the hour
and global tiers, and the store is unchanged. -/
theorem check_denied_ip_eq (s : Settings) (sid ip : String) (db : List RateLimitEntry)
    (a : String) (now : Int) (hl dl il gl : Int)
    (hlim : get_limits s a = some (hl, dl, il, gl))
    (hD : sessionDayCount db a now sid < dl)
    (hI : il ≤ ipDayCount db a now ip) :
    check_and_increment s sid ip db a now =
      some (⟨false,
        ⟨hl, max 0 (hl - sessionHourCount db a now sid), now + 3600⟩,
        ⟨dl, max 0 (dl - sessionDayCount db a now sid), now + 86400⟩,
        ⟨il, max 0 (il - ipDayCount db a now ip), now + 86400⟩,
        ⟨gl, max 0 (gl - globalDayCount db a now), now + 86400⟩,
        some "ip_day", some 86400⟩, db) := by
  have hD' : ¬ dl ≤ sessionDayCount db a now sid := not_le.mpr hD
  unfold check_and_increment
  rw [hlim]
  by_cases hH : hl ≤ sessionHourCount db a now sid <;>
    by_cases hG : gl ≤ globalDayCount db a now <;>
    simp only [hD', hH, hI, hG, if_true, if_false, eq_self_iff_true] <;>
    simp [sortByRetryDesc, insertByRetryDesc, add_sub_cancel_left]

/-- Evaluation of `check_and_increment` when the session-day and IP-day tiers
are under their limits but the global tier has reached its limit: the check is
denied with `exceeded_type = "global_day"` and `retry_after = 86400`,
regardless of the hour tier, and the store is unchanged. -/
theorem check_denied_global_eq (s : Settings) (sid ip : String)
    (db : List RateLimitEntry) (a : String) (now : Int) (hl dl il gl : Int)
    (hlim : get_limits s a = some (hl, dl, il, gl))
    (hD : sessionDayCount db a now sid < dl)
    (hI : ipDayCount db a now ip < il)
    (hG : gl ≤ globalDayCount db a now) :
    check_and_increment s sid ip db a now =
      some (⟨false,
        ⟨hl, max 0 (hl - sessionHourCount db a now sid), now + 3600⟩,
        ⟨dl, max 0 (dl - sessionDayCount db a now sid), now + 86400⟩,
        ⟨il, max 0 (il - ipDayCount db a now ip), now + 86400⟩,
        ⟨gl, max 0 (gl - globalDayCount db a now), now + 86400⟩,
        some "global_day", some 86400⟩, db) := by
  have hD' : ¬ dl ≤ sessionDayCount db a now sid := not_le.mpr hD
  have hI' : ¬ il ≤ ipDayCount db a now ip := not_le.mpr hI
  unfold check_and_increment
  rw [hlim]
  by_cases hH : hl ≤ sessionHourCount db a now sid <;>
    simp only [hD', hH, hI', hG, if_true, if_false, eq_self_iff_true] <;>
    simp [sortByRetryDesc, insertByRetryDesc, add_sub_cancel_left]

/-- Evaluation of `check_and_increment` when only the hour tier has reached
its limit: the check is denied with `exceeded_type = "hour"` and
`retry_after = 3600`, and the store is unchanged. -/
theorem check_denied_hour_eq (s : Settings) (sid ip : String)
    (db : List RateLimitEntry) (a : String) (now : Int) (hl dl il gl : Int)
    (hlim : get_limits s a = some (hl, dl, il, gl))
    (hH : hl ≤ sessionHourCount db a now sid)
    (hD : sessionDayCount db a now sid < dl)
    (hI : ipDayCount db a now ip < il)
    (hG : globalDayCount db a now < gl) :
    check_and_increment s sid ip db a now =
      some (⟨false,
        ⟨hl, max 0 (hl - sessionHourCount db a now sid), now + 3600⟩,
        ⟨dl, max 0 (dl - sessionDayCount db a now sid), now + 86400⟩,
        ⟨il, max 0 (il - ipDayCount db a now ip), now + 86400⟩,
        ⟨gl, max 0 (gl - globalDayCount db a now), now + 86400⟩,
        some "hour", some 3600⟩, db) := by
  have hD' : ¬ dl ≤ sessionDayCount db a now sid := not_le.mpr hD
  have hI' : ¬ il ≤ ipDayCount db a now ip := not_le.mpr hI
  have hG' : ¬ gl ≤ globalDayCount db a now := not_le.mpr hG
  unfold check_and_increment
  rw [hlim]
  simp only [hD', hH, hI', hG', if_true, if_false, eq_self_iff_true]
  simp [sortByRetryDesc, insertByRetryDesc, add_sub_cancel_left]

/-- The shipped `Settings` class defines no hour-limit attribute, for either
action class. -/
theorem get_limits_default_none (a : String) :
    get_limits default_settings a = none := by
  unfold get_limits default_settings
  cases h : a == "analyze" <;> simp [h]

/-- Membership in a conditionally-present singleton list forces equality. -/
theorem mem_ite_singleton {α : Type} {c : Prop} [Decidable c] {x y : α}
    (h : x ∈ (if c then [y] else [])) : x = y := by
  split at h
  · simpa using h
  · simp at h

/-- Every tier in the exceeded list waits at most the day window: retry times
are 3600 s for the hour tier and 86400 s for the day-window tiers. -/
theorem exceededList_snd_le (db : List RateLimitEntry) (a : String) (now : Int)
    (sid ip : String) (hl dl il gl : Int) :
    ∀ p ∈ exceededList db a now sid ip hl dl il gl, p.2 ≤ 86400 := by
  intro p hp
  simp only [exceededList, List.mem_append] at hp
  rcases hp with ((h | h) | h) | h <;>
    · have h2 := mem_ite_singleton h
      subst h2
      decide

/-! ### Claim theorems -/

/-- C3: claimed that both the 4-tier and the 3-tier scheme are valid
configurations of the same engine and that `check_and_increment` evaluated
against the configuration type shipped in `Settings` (daily limits only)
completes normally. In the code the engine is not parameterized by which
windows are enabled: `_get_limits` unconditionally reads `RATE_LIMIT_HOUR`
(resp. `RATE_LIMIT_LLM_HOUR`), which the shipped `Settings` class does not
declare, so with the shipped configuration every call to
`check_and_increment`, for every action, raises `AttributeError` (modeled as
`none`) instead of completing. -/
theorem check_and_increment_default_settings_raises (sid ip : String)
    (db : List RateLimitEntry) (a : String) (now : Int) :
    check_and_increment default_settings sid ip db a now = none := by
  unfold check_and_increment
  rw [get_limits_default_none]

/-- C9: for every call to `check_and_increment` (allowed or denied), the
reported reset timestamp of every tier equals `now + window` exactly: the hour
tier reports `now + 3600` and the day, ip-day and global-day tiers report
`now + 86400`, independently of the stored entries. -/
theorem reset_is_now_plus_window (s : Settings) (sid ip : String)
    (db : List RateLimitEntry) (a : String) (now : Int) (hl dl il gl : Int)
    (res : RateLimitResult) (db2 : List RateLimitEntry)
    (hlim : get_limits s a = some (hl, dl, il, gl))
    (hrun : check_and_increment s sid ip db a now = some (res, db2)) :
    res.hour.reset = now + 3600 ∧ res.day.reset = now + 86400 ∧
    res.ip_day.reset = now + 86400 ∧ res.global_day.reset = now + 86400 := by
  rcases le_or_lt dl (sessionDayCount db a now sid) with hD | hD
  · rw [check_denied_day_eq s sid ip db a now hl dl il gl hlim hD] at hrun
    simp only [Option.some.injEq, Prod.mk.injEq] at hrun
    obtain ⟨hres, -⟩ := hrun
    subst hres
    exact ⟨rfl, rfl, rfl, rfl⟩
  · rcases le_or_lt il (ipDayCount db a now ip) with hI | hI
    · rw [check_denied_ip_eq s sid ip db a now hl dl il gl hlim hD hI] at hrun
      simp only [Option.some.injEq, Prod.mk.injEq] at hrun
      obtain ⟨hres, -⟩ := hrun
      subst hres
      exact ⟨rfl, rfl, rfl, rfl⟩
    · rcases le_or_lt gl (globalDayCount db a now) with hG | hG
      · rw [check_denied_global_eq s sid ip db a now hl dl il gl hlim hD hI hG] at hrun
        simp only [Option.some.injEq, Prod.mk.injEq] at hrun
        obtain ⟨hres, -⟩ := hrun
        subst hres
        exact ⟨rfl, rfl, rfl, rfl⟩
      · rcases le_or_lt hl (sessionHourCount db a now sid) with hH | hH
        · rw [check_denied_hour_eq s sid ip db a now hl dl il gl hlim hH hD hI hG] at hrun
          simp only [Option.some.injEq, Prod.mk.injEq] at hrun
          obtain ⟨hres, -⟩ := hrun
          subst hres
          exact ⟨rfl, rfl, rfl, rfl⟩
        · rw [check_allowed_eq s sid ip db a now hl dl il gl hlim hH hD hI hG] at hrun
          simp only [Option.some.injEq, Prod.mk.injEq] at hrun
          obtain ⟨hres, -⟩ := hrun
          subst hres
          exact ⟨rfl, rfl, rfl, rfl⟩

/-- Witness for C9 at a concrete denied call: with hour limit 2 reached by two
recent entries, the reported resets are `now + window` for every tier. -/
theorem reset_is_now_plus_window_witness :
    get_limits wSettings "transcribe" = some (2, 3, 4, 5) ∧
    (⟨false, ⟨2, 0, 1003600⟩, ⟨3, 1, 1086400⟩, ⟨4, 2, 1086400⟩, ⟨5, 3, 1086400⟩,
        some "hour", some 3600⟩ : RateLimitResult).hour.reset = 1000000 + 3600 := by
  constructor
  · rfl
  · exact (reset_is_now_plus_window wSettings "s1" "i1" [wEntry 999000, wEntry 999100]
      "transcribe" 1000000 2 3 4 5
      ⟨false, ⟨2, 0, 1003600⟩, ⟨3, 1, 1086400⟩, ⟨4, 2, 1086400⟩, ⟨5, 3, 1086400⟩,
        some "hour", some 3600⟩
      [wEntry 999000, wEntry 999100] (by rfl) (by decide)).1

/-- C2: for every call to `check_and_increment`, a tier is exceeded exactly
when its trailing-window count of matching committed entries satisfies
`count >= limit`; the result is allowed exactly when no tier is exceeded; when
allowed, exactly one new entry for `(action, session, ip, now)` is staged; when
denied, nothing is staged and the store is unchanged. -/
theorem check_verdict_and_staging (s : Settings) (sid ip : String)
    (db : List RateLimitEntry) (a : String) (now : Int) (hl dl il gl : Int)
    (res : RateLimitResult) (db2 : List RateLimitEntry)
    (hlim : get_limits s a = some (hl, dl, il, gl))
    (hrun : check_and_increment s sid ip db a now = some (res, db2)) :
    (res.allowed = true ↔
      sessionHourCount db a now sid < hl ∧ sessionDayCount db a now sid < dl ∧
      ipDayCount db a now ip < il ∧ globalDayCount db a now < gl) ∧
    (res.allowed = true → db2 = db ++ [⟨some sid, some ip, a, now⟩]) ∧
    (res.allowed = false → db2 = db) := by
  rcases le_or_lt dl (sessionDayCount db a now sid) with hD | hD
  · rw [check_denied_day_eq s sid ip db a now hl dl il gl hlim hD] at hrun
    simp only [Option.some.injEq, Prod.mk.injEq] at hrun
    obtain ⟨hres, hdb⟩ := hrun
    subst hres; subst hdb
    refine ⟨?_, ?_, fun _ => rfl⟩
    · constructor
      · intro h; simp at h
      · intro h; exact absurd h.2.1 (by omega)
    · intro h; simp at h
  · rcases le_or_lt il (ipDayCount db a now ip) with hI | hI
    · rw [check_denied_ip_eq s sid ip db a now hl dl il gl hlim hD hI] at hrun
      simp only [Option.some.injEq, Prod.mk.injEq] at hrun
      obtain ⟨hres, hdb⟩ := hrun
      subst hres; subst hdb
      refine ⟨?_, ?_, fun _ => rfl⟩
      · constructor
        · intro h; simp at h
        · intro h; exact absurd h.2.2.1 (by omega)
      · intro h; simp at h
    · rcases le_or_lt gl (globalDayCount db a now) with hG | hG
      · rw [check_denied_global_eq s sid ip db a now hl dl il gl hlim hD hI hG] at hrun
        simp only [Option.some.injEq, Prod.mk.injEq] at hrun
        obtain ⟨hres, hdb⟩ := hrun
        subst hres; subst hdb
        refine ⟨?_, ?_, fun _ => rfl⟩
        · constructor
          · intro h; simp at h
          · intro h; exact absurd h.2.2.2 (by omega)
        · intro h; simp at h
      · rcases le_or_lt hl (sessionHourCount db a now sid) with hH | hH
        · rw [check_denied_hour_eq s sid ip db a now hl dl il gl hlim hH hD hI hG] at hrun
          simp only [Option.some.injEq, Prod.mk.injEq] at hrun
          obtain ⟨hres, hdb⟩ := hrun
          subst hres; subst hdb
          refine ⟨?_, ?_, fun _ => rfl⟩
          · constructor
            · intro h; simp at h
            · intro h; exact absurd h.1 (by omega)
          · intro h; simp at h
        · rw [check_allowed_eq s sid ip db a now hl dl il gl hlim hH hD hI hG] at hrun
          simp only [Option.some.injEq, Prod.mk.injEq] at hrun
          obtain ⟨hres, hdb⟩ := hrun
          subst hres; subst hdb
          refine ⟨?_, fun _ => rfl, ?_⟩
          · simp only [true_iff]
            exact ⟨hH, hD, hI, hG⟩
          · intro h; simp at h

/-- Witness for C2 at a concrete allowed call on an empty store. -/
theorem check_verdict_and_staging_witness :
    ((⟨true, ⟨2, 1, 3600⟩, ⟨3, 2, 86400⟩, ⟨4, 3, 86400⟩, ⟨5, 4, 86400⟩,
        none, none⟩ : RateLimitResult).allowed = true ↔
      sessionHourCount [] "transcribe" 0 "s1" < 2 ∧
      sessionDayCount [] "transcribe" 0 "s1" < 3 ∧
      ipDayCount [] "transcribe" 0 "i1" < 4 ∧ globalDayCount [] "transcribe" 0 < 5) ∧
    ((⟨true, ⟨2, 1, 3600⟩, ⟨3, 2, 86400⟩, ⟨4, 3, 86400⟩, ⟨5, 4, 86400⟩,
        none, none⟩ : RateLimitResult).allowed = true →
      [wEntry 0] = [] ++ [⟨some "s1", some "i1", "transcribe", 0⟩]) ∧
    ((⟨true, ⟨2, 1, 3600⟩, ⟨3, 2, 86400⟩, ⟨4, 3, 86400⟩, ⟨5, 4, 86400⟩,
        none, none⟩ : RateLimitResult).allowed = false → [wEntry 0] = []) :=
  check_verdict_and_staging wSettings "s1" "i1" [] "transcribe" 0 2 3 4 5
    ⟨true, ⟨2, 1, 3600⟩, ⟨3, 2, 86400⟩, ⟨4, 3, 86400⟩, ⟨5, 4, 86400⟩, none, none⟩
    [wEntry 0] (by rfl) (by decide)

/-- C10: the tie-break of longest-wait-wins is the stable insertion order:
when the session-day tier is exceeded the reported type is `"day"`; when it is
not but the ip-day tier is exceeded, `"ip_day"`; when only the global tier
among the day-window tiers is exceeded, `"global_day"`; and `"hour"` is
reported only when the hour tier is the sole exceeded tier (its 3600 s retry
being strictly smaller than every day-window retry). -/
theorem exceeded_type_tie_break (s : Settings) (sid ip : String)
    (db : List RateLimitEntry) (a : String) (now : Int) (hl dl il gl : Int)
    (res : RateLimitResult) (db2 : List RateLimitEntry)
    (hlim : get_limits s a = some (hl, dl, il, gl))
    (hrun : check_and_increment s sid ip db a now = some (res, db2)) :
    (dl ≤ sessionDayCount db a now sid →
      res.exceeded_type = some "day" ∧ res.retry_after = some 86400) ∧
    (sessionDayCount db a now sid < dl → il ≤ ipDayCount db a now ip →
      res.exceeded_type = some "ip_day" ∧ res.retry_after = some 86400) ∧
    (sessionDayCount db a now sid < dl → ipDayCount db a now ip < il →
      gl ≤ globalDayCount db a now →
      res.exceeded_type = some "global_day" ∧ res.retry_after = some 86400) ∧
    (res.exceeded_type = some "hour" →
      hl ≤ sessionHourCount db a now sid ∧ sessionDayCount db a now sid < dl ∧
      ipDayCount db a now ip < il ∧ globalDayCount db a now < gl ∧
      res.retry_after = some 3600) := by
  rcases le_or_lt dl (sessionDayCount db a now sid) with hD | hD
  · rw [check_denied_day_eq s sid ip db a now hl dl il gl hlim hD] at hrun
    simp only [Option.some.injEq, Prod.mk.injEq] at hrun
    obtain ⟨hres, -⟩ := hrun
    subst hres
    exact ⟨fun _ => ⟨rfl, rfl⟩, fun h => absurd h (by omega),
      fun h => absurd h (by omega), fun h => by simp at h⟩
  · rcases le_or_lt il (ipDayCount db a now ip) with hI | hI
    · rw [check_denied_ip_eq s sid ip db a now hl dl il gl hlim hD hI] at hrun
      simp only [Option.some.injEq, Prod.mk.injEq] at hrun
      obtain ⟨hres, -⟩ := hrun
      subst hres
      exact ⟨fun h => absurd h (by omega), fun _ _ => ⟨rfl, rfl⟩,
        fun _ h => absurd h (by omega), fun h => by simp at h⟩
    · rcases le_or_lt gl (globalDayCount db a now) with hG | hG
      · rw [check_denied_global_eq s sid ip db a now hl dl il gl hlim hD hI hG] at hrun
        simp only [Option.some.injEq, Prod.mk.injEq] at hrun
        obtain ⟨hres, -⟩ := hrun
        subst hres
        exact ⟨fun h => absurd h (by omega), fun _ h => absurd h (by omega),
          fun _ _ _ => ⟨rfl, rfl⟩, fun h => by simp at h⟩
      · rcases le_or_lt hl (sessionHourCount db a now sid) with hH | hH
        · rw [check_denied_hour_eq s sid ip db a now hl dl il gl hlim hH hD hI hG] at hrun
          simp only [Option.some.injEq, Prod.mk.injEq] at hrun
          obtain ⟨hres, -⟩ := hrun
          subst hres
          exact ⟨fun h => absurd h (by omega), fun _ h => absurd h (by omega),
            fun _ _ h => absurd h (by omega), fun _ => ⟨hH, hD, hI, hG, rfl⟩⟩
        · rw [check_allowed_eq s sid ip db a now hl dl il gl hlim hH hD hI hG] at hrun
          simp only [Option.some.injEq, Prod.mk.injEq] at hrun
          obtain ⟨hres, -⟩ := hrun
          subst hres
          exact ⟨fun h => absurd h (by omega), fun _ h => absurd h (by omega),
            fun _ _ h => absurd h (by omega), fun h => by simp at h⟩

/-- Witness for C10 at a concrete call where the session-day tier is at its
limit (three committed entries earlier in the day, outside the hour window). -/
theorem exceeded_type_tie_break_witness :
    (3 ≤ sessionDayCount [wEntry 950000, wEntry 950100, wEntry 950200]
        "transcribe" 1000000 "s1" →
      (⟨false, ⟨2, 2, 1003600⟩, ⟨3, 0, 1086400⟩, ⟨4, 1, 1086400⟩, ⟨5, 2, 1086400⟩,
        some "day", some 86400⟩ : RateLimitResult).exceeded_type = some "day" ∧
      (⟨false, ⟨2, 2, 1003600⟩, ⟨3, 0, 1086400⟩, ⟨4, 1, 1086400⟩, ⟨5, 2, 1086400⟩,
        some "day", some 86400⟩ : RateLimitResult).retry_after = some 86400) ∧
    3 ≤ sessionDayCount [wEntry 950000, wEntry 950100, wEntry 950200]
        "transcribe" 1000000 "s1" :=
  ⟨((exceeded_type_tie_break wSettings "s1" "i1"
      [wEntry 950000, wEntry 950100, wEntry 950200] "transcribe" 1000000 2 3 4 5
      ⟨false, ⟨2, 2, 1003600⟩, ⟨3, 0, 1086400⟩, ⟨4, 1, 1086400⟩, ⟨5, 2, 1086400⟩,
        some "day", some 86400⟩
      [wEntry 950000, wEntry 950100, wEntry 950200] (by rfl) (by decide)).1),
    by decide⟩

/-- C1: when two or more tiers are simultaneously exceeded, the result reports
exactly one `exceeded_type` — an exceeded tier whose `retry_after` is the
largest among all exceeded tiers; in particular, when the hour tier and a
day-window tier are both exceeded, the reported tier is never `"hour"`,
regardless of tier evaluation order. -/
theorem longest_wait_wins (s : Settings) (sid ip : String)
    (db : List RateLimitEntry) (a : String) (now : Int) (hl dl il gl : Int)
    (res : RateLimitResult) (db2 : List RateLimitEntry)
    (hlim : get_limits s a = some (hl, dl, il, gl))
    (hrun : check_and_increment s sid ip db a now = some (res, db2))
    (htwo : 2 ≤ (exceededList db a now sid ip hl dl il gl).length) :
    ∃ t r, res.exceeded_type = some t ∧ res.retry_after = some r ∧
      (t, r) ∈ exceededList db a now sid ip hl dl il gl ∧
      (∀ p ∈ exceededList db a now sid ip hl dl il gl, p.2 ≤ r) ∧
      (hl ≤ sessionHourCount db a now sid →
        (dl ≤ sessionDayCount db a now sid ∨ il ≤ ipDayCount db a now ip ∨
          gl ≤ globalDayCount db a now) → t ≠ "hour") := by
  rcases le_or_lt dl (sessionDayCount db a now sid) with hD | hD
  · rw [check_denied_day_eq s sid ip db a now hl dl il gl hlim hD] at hrun
    simp only [Option.some.injEq, Prod.mk.injEq] at hrun
    obtain ⟨hres, -⟩ := hrun
    subst hres
    refine ⟨"day", 86400, rfl, rfl, ?_,
      exceededList_snd_le db a now sid ip hl dl il gl, fun _ _ => by decide⟩
    simp [exceededList, hD]
  · rcases le_or_lt il (ipDayCount db a now ip) with hI | hI
    · rw [check_denied_ip_eq s sid ip db a now hl dl il gl hlim hD hI] at hrun
      simp only [Option.some.injEq, Prod.mk.injEq] at hrun
      obtain ⟨hres, -⟩ := hrun
      subst hres
      refine ⟨"ip_day", 86400, rfl, rfl, ?_,
        exceededList_snd_le db a now sid ip hl dl il gl, fun _ _ => by decide⟩
      simp [exceededList, hI]
    · rcases le_or_lt gl (globalDayCount db a now) with hG | hG
      · rw [check_denied_global_eq s sid ip db a now hl dl il gl hlim hD hI hG] at hrun
        simp only [Option.some.injEq, Prod.mk.injEq] at hrun
        obtain ⟨hres, -⟩ := hrun
        subst hres
        refine ⟨"global_day", 86400, rfl, rfl, ?_,
          exceededList_snd_le db a now sid ip hl dl il gl, fun _ _ => by decide⟩
        simp [exceededList, hG]
      · rcases le_or_lt hl (sessionHourCount db a now sid) with hH | hH
        · exfalso
          simp [exceededList, hH, not_le.mpr hD, not_le.mpr hI, not_le.mpr hG] at htwo
        · exfalso
          simp [exceededList, not_le.mpr hH, not_le.mpr hD, not_le.mpr hI,
            not_le.mpr hG] at htwo

/-- Witness for C1 at a concrete call where both the hour tier (2 recent
entries) and the session-day tier (4 entries in the day) are exceeded: the
reported tier is `"day"` with the larger retry time, never `"hour"`. -/
theorem longest_wait_wins_witness :
    2 ≤ (exceededList [wEntry 999000, wEntry 999100, wEntry 950000, wEntry 950100]
        "transcribe" 1000000 "s1" "i1" 2 3 4 5).length ∧
    ∃ t r,
      (⟨false, ⟨2, 0, 1003600⟩, ⟨3, 0, 1086400⟩, ⟨4, 0, 1086400⟩, ⟨5, 1, 1086400⟩,
        some "day", some 86400⟩ : RateLimitResult).exceeded_type = some t ∧
      (⟨false, ⟨2, 0, 1003600⟩, ⟨3, 0, 1086400⟩, ⟨4, 0, 1086400⟩, ⟨5, 1, 1086400⟩,
        some "day", some 86400⟩ : RateLimitResult).retry_after = some r ∧
      (t, r) ∈ exceededList [wEntry 999000, wEntry 999100, wEntry 950000, wEntry 950100]
        "transcribe" 1000000 "s1" "i1" 2 3 4 5 ∧
      (∀ p ∈ exceededList [wEntry 999000, wEntry 999100, wEntry 950000, wEntry 950100]
        "transcribe" 1000000 "s1" "i1" 2 3 4 5, p.2 ≤ r) ∧
      (2 ≤ sessionHourCount [wEntry 999000, wEntry 999100, wEntry 950000, wEntry 950100]
          "transcribe" 1000000 "s1" →
        (3 ≤ sessionDayCount [wEntry 999000, wEntry 999100, wEntry 950000, wEntry 950100]
            "transcribe" 1000000 "s1" ∨
         4 ≤ ipDayCount [wEntry 999000, wEntry 999100, wEntry 950000, wEntry 950100]
            "transcribe" 1000000 "i1" ∨
         5 ≤ globalDayCount [wEntry 999000, wEntry 999100, wEntry 950000, wEntry 950100]
            "transcribe" 1000000) → t ≠ "hour") :=
  ⟨by decide,
    longest_wait_wins wSettings "s1" "i1"
      [wEntry 999000, wEntry 999100, wEntry 950000, wEntry 950100]
      "transcribe" 1000000 2 3 4 5
      ⟨false, ⟨2, 0, 1003600⟩, ⟨3, 0, 1086400⟩, ⟨4, 0, 1086400⟩, ⟨5, 1, 1086400⟩,
        some "day", some 86400⟩
      [wEntry 999000, wEntry 999100, wEntry 950000, wEntry 950100]
      (by rfl) (by decide) (by decide)⟩

/-- C5: scope isolation of the counting queries. A committed entry belonging
to session `s2` and IP `i` never changes the session-scoped count of a
distinct session `s1` (for any window); when its action matches and it lies
inside the window, it counts toward the IP-scoped count of `i` (shared-IP
interference) and toward the unscoped global count. -/
theorem count_scope_isolation (db : List RateLimitEntry) (e : RateLimitEntry)
    (a : String) (since : Int) (s1 s2 i : String)
    (hs1 : s1 ≠ "") (hne : s2 ≠ s1) (hi : i ≠ "")
    (hsid : e.session_id = some s2) (hip : e.ip_address = some i) :
    count_entries (db ++ [e]) a since (some s1) none =
      count_entries db a since (some s1) none ∧
    (e.action = a → since ≤ e.created_at →
      count_entries (db ++ [e]) a since none (some i) =
        count_entries db a since none (some i) + 1 ∧
      count_entries (db ++ [e]) a since none none =
        count_entries db a since none none + 1) := by
  refine ⟨?_, fun hact htime => ⟨?_, ?_⟩⟩
  · rw [count_entries_append]
    have hm : entryMatches e a since (some s1) none = false := by
      simp [entryMatches, truthyStr, hs1, hsid, hne]
    simp [hm]
  · rw [count_entries_append]
    have hm : entryMatches e a since none (some i) = true := by
      simp [entryMatches, truthyStr, hi, hip, hact, htime]
    simp [hm]
  · rw [count_entries_append]
    have hm : entryMatches e a since none none = true := by
      simp [entryMatches, truthyStr, hact, htime]
    simp [hm]

/-- Witness for C5: a committed entry of session `"s2"` (same IP `"i1"`) does
not change `"s1"`'s session count but increments the IP and global counts. -/
theorem count_scope_isolation_witness :
    count_entries ([] ++ [⟨some "s2", some "i1", "transcribe", 50⟩]) "transcribe" 0
        (some "s1") none =
      count_entries [] "transcribe" 0 (some "s1") none ∧
    ((⟨some "s2", some "i1", "transcribe", 50⟩ : RateLimitEntry).action = "transcribe" →
      (0 : Int) ≤ (⟨some "s2", some "i1", "transcribe", 50⟩ : RateLimitEntry).created_at →
      count_entries ([] ++ [⟨some "s2", some "i1", "transcribe", 50⟩]) "transcribe" 0
          none (some "i1") =
        count_entries [] "transcribe" 0 none (some "i1") + 1 ∧
      count_entries ([] ++ [⟨some "s2", some "i1", "transcribe", 50⟩]) "transcribe" 0
          none none =
        count_entries [] "transcribe" 0 none none + 1) :=
  count_scope_isolation [] ⟨some "s2", some "i1", "transcribe", 50⟩ "transcribe" 0
    "s1" "s2" "i1" (by decide) (by decide) (by decide) (by decide) (by decide)

/-- C4: under the implemented count-attempts policy, the entry staged by an
allowed check is committed by the dependency immediately after the check
passes and strictly before the upstream call (the event trace is
`[ledger_commit, upstream_call]`); consequently the committed ledger — and the
resulting decremented remaining quota — is the same whether the upstream call
succeeds or fails. -/
theorem count_attempts_policy (s : Settings) (sid ip : String)
    (db : List RateLimitEntry) (a : String) (now : Int) (hl dl il gl : Int)
    (hlim : get_limits s a = some (hl, dl, il, gl))
    (hsid : sid ≠ "")
    (h1 : sessionHourCount db a now sid < hl)
    (h2 : sessionDayCount db a now sid < dl)
    (h3 : ipDayCount db a now ip < il)
    (h4 : globalDayCount db a now < gl) :
    ∀ upstreamOk : Bool,
      handle_request s sid ip db a now upstreamOk =
        some ⟨db ++ [⟨some sid, some ip, a, now⟩],
          [Event.ledger_commit, Event.upstream_call], some upstreamOk⟩ ∧
      sessionDayCount (db ++ [⟨some sid, some ip, a, now⟩]) a now sid =
        sessionDayCount db a now sid + 1 := by
  intro upstreamOk
  constructor
  · unfold handle_request require_rate_limit
    rw [check_allowed_eq s sid ip db a now hl dl il gl hlim h1 h2 h3 h4]
    rfl
  · unfold sessionDayCount
    rw [count_entries_append]
    have hm : entryMatches ⟨some sid, some ip, a, now⟩ a (now - 86400) (some sid) none
        = true := by
      simp only [entryMatches, truthyStr]
      simp [hsid]
    simp [hm]

/-- Witness for C4: on an empty store, an allowed transcribe request with a
failing upstream call still leaves the committed entry and the incremented
day count. -/
theorem count_attempts_policy_witness :
    (handle_request wSettings "s1" "i1" [] "transcribe" 0 false =
        some ⟨[] ++ [⟨some "s1", some "i1", "transcribe", 0⟩],
          [Event.ledger_commit, Event.upstream_call], some false⟩ ∧
      sessionDayCount ([] ++ [⟨some "s1", some "i1", "transcribe", 0⟩])
          "transcribe" 0 "s1" =
        sessionDayCount [] "transcribe" 0 "s1" + 1) :=
  count_attempts_policy wSettings "s1" "i1" [] "transcribe" 0 2 3 4 5
    (by rfl) (by decide) (by decide) (by decide) (by decide) (by decide) false

/-- C6: resolving a truthy identifier whose stored session has
`expires_at < now` deletes the existing row, creates and returns a brand-new
session under the fresh identifier (registration and login succeeding), and
never returns the expired row: the returned session differs from the expired
one, which is absent from the resulting table. -/
theorem resolve_expired_replacement (sid : String) (ip : Option String)
    (db : List SessionModel) (dur now : Int) (freshId : String)
    (t : TokenResponse) (refreshFn : String → UpstreamOutcome) (sess : SessionModel)
    (hsid : sid ≠ "")
    (hfound : db.find? (fun r => r.session_id == sid) = some sess)
    (hexp : sess.expires_at < now)
    (hfresh : freshId ≠ sid) :
    get_or_create_session (some sid) ip db dur now freshId (.ok ()) (.ok t) refreshFn =
      .ok ⟨⟨freshId, "anon-" ++ freshId ++ "@demo.eversaid.local", t.access_token,
            t.refresh_token, now + 7 * 86400, now, now + dur * 86400, ip⟩,
          db.filter (fun r => !(r.session_id == sess.session_id)) ++
            [⟨freshId, "anon-" ++ freshId ++ "@demo.eversaid.local", t.access_token,
              t.refresh_token, now + 7 * 86400, now, now + dur * 86400, ip⟩],
          [], true, true⟩ ∧
    (⟨freshId, "anon-" ++ freshId ++ "@demo.eversaid.local", t.access_token,
      t.refresh_token, now + 7 * 86400, now, now + dur * 86400, ip⟩ :
        SessionModel).session_id ≠ sid ∧
    sess ∉ db.filter (fun r => !(r.session_id == sess.session_id)) ++
      [⟨freshId, "anon-" ++ freshId ++ "@demo.eversaid.local", t.access_token,
        t.refresh_token, now + 7 * 86400, now, now + dur * 86400, ip⟩] := by
  have hsid2 : sess.session_id = sid := by
    have h := List.find?_some hfound
    simpa using h
  refine ⟨?_, hfresh, ?_⟩
  · unfold get_or_create_session create_anonymous_session
    simp [hsid, hfound, hexp]
  · intro hmem
    rcases List.mem_append.mp hmem with h | h
    · have h2 := List.mem_filter.mp h
      simp at h2
    · simp only [List.mem_singleton] at h
      rw [h] at hsid2
      simp at hsid2
      exact hfresh hsid2

/-- Witness for C6: a stored session expired at 100, resolved at time 200 with
a fresh identifier, is deleted and replaced. -/
theorem resolve_expired_replacement_witness :
    get_or_create_session (some "sid1") (some "1.2.3.4") [wSess 0 100] 7 200 "fresh1"
        (.ok ()) (.ok ⟨"newat", "newrt"⟩) wRefreshOk =
      .ok ⟨⟨"fresh1", "anon-" ++ "fresh1" ++ "@demo.eversaid.local", "newat",
            "newrt", 200 + 7 * 86400, 200, 200 + 7 * 86400, some "1.2.3.4"⟩,
          [wSess 0 100].filter (fun r => !(r.session_id == (wSess 0 100).session_id)) ++
            [⟨"fresh1", "anon-" ++ "fresh1" ++ "@demo.eversaid.local", "newat",
              "newrt", 200 + 7 * 86400, 200, 200 + 7 * 86400, some "1.2.3.4"⟩],
          [], true, true⟩ ∧
    (⟨"fresh1", "anon-" ++ "fresh1" ++ "@demo.eversaid.local", "newat",
      "newrt", 200 + 7 * 86400, 200, 200 + 7 * 86400, some "1.2.3.4"⟩ :
        SessionModel).session_id ≠ "sid1" ∧
    wSess 0 100 ∉
      [wSess 0 100].filter (fun r => !(r.session_id == (wSess 0 100).session_id)) ++
        [⟨"fresh1", "anon-" ++ "fresh1" ++ "@demo.eversaid.local", "newat",
          "newrt", 200 + 7 * 86400, 200, 200 + 7 * 86400, some "1.2.3.4"⟩] :=
  resolve_expired_replacement "sid1" (some "1.2.3.4") [wSess 0 100] 7 200 "fresh1"
    ⟨"newat", "newrt"⟩ wRefreshOk (wSess 0 100)
    (by decide) (by decide) (by decide) (by decide)

/-- C7: resolving a truthy identifier whose stored session is not expired
refreshes the tokens exactly once, with the stored refresh token, when
`token_expires_at < now + 3600` (the one-hour threshold), updating access
token, refresh token and `token_expires_at` in place before returning; and
performs no refresh call and returns the stored row unchanged when
`token_expires_at` is at least `now + 3600`. -/
theorem resolve_refresh_policy (sid : String) (ip : Option String)
    (db : List SessionModel) (dur now : Int) (freshId : String)
    (registerOutcome : Except CoreAPIError Unit)
    (loginOutcome : Except CoreAPIError TokenResponse)
    (refreshFn : String → UpstreamOutcome) (sess : SessionModel)
    (hsid : sid ≠ "")
    (hfound : db.find? (fun r => r.session_id == sid) = some sess)
    (hnotexp : ¬ sess.expires_at < now) :
    (∀ st b t, sess.token_expires_at < now + 3600 →
      refreshFn sess.refresh_token = .response st b t → 200 ≤ st → st ≤ 299 →
      get_or_create_session (some sid) ip db dur now freshId registerOutcome
          loginOutcome refreshFn =
        .ok ⟨⟨sess.session_id, sess.core_api_email, t.access_token, t.refresh_token,
              now + 7 * 86400, sess.created_at, sess.expires_at, sess.ip_address⟩,
            db.map (fun r => if r.session_id == sess.session_id then
              (⟨sess.session_id, sess.core_api_email, t.access_token, t.refresh_token,
                now + 7 * 86400, sess.created_at, sess.expires_at, sess.ip_address⟩ :
                  SessionModel)
              else r),
            [sess.refresh_token], false, false⟩) ∧
    (now + 3600 ≤ sess.token_expires_at →
      get_or_create_session (some sid) ip db dur now freshId registerOutcome
          loginOutcome refreshFn = .ok ⟨sess, db, [], false, false⟩) := by
  constructor
  · intro st b t hstale hcall h200 h299
    unfold get_or_create_session
    simp [hsid, hfound, hnotexp, hstale, hcall, refresh_session_tokens,
      CoreAPIClient.refresh, h200, h299]
  · intro hfreshTok
    unfold get_or_create_session
    simp [hsid, hfound, hnotexp, not_lt.mpr hfreshTok]

/-- Witness for C7 at a concrete stale-token session: `token_expires_at = 900`
with `now = 1000`, threshold `1000 + 3600`, oracle answering 200 with new
tokens; the session is refreshed exactly once with the stored token `"rt0"`. -/
theorem resolve_refresh_policy_witness :
    (wSess 900 2000000).token_expires_at < 1000 + 3600 ∧
    get_or_create_session (some "sid1") (some "1.2.3.4") [wSess 900 2000000] 7 1000
        "fresh1" (.ok ()) (.ok ⟨"la", "lr"⟩) wRefreshOk =
      .ok ⟨⟨(wSess 900 2000000).session_id, (wSess 900 2000000).core_api_email,
            "newat", "newrt", 1000 + 7 * 86400, (wSess 900 2000000).created_at,
            (wSess 900 2000000).expires_at, (wSess 900 2000000).ip_address⟩,
          [wSess 900 2000000].map (fun r =>
            if r.session_id == (wSess 900 2000000).session_id then
              (⟨(wSess 900 2000000).session_id, (wSess 900 2000000).core_api_email,
                "newat", "newrt", 1000 + 7 * 86400, (wSess 900 2000000).created_at,
                (wSess 900 2000000).expires_at, (wSess 900 2000000).ip_address⟩ :
                  SessionModel)
            else r),
          [(wSess 900 2000000).refresh_token], false, false⟩ :=
  ⟨by decide,
    (resolve_refresh_policy "sid1" (some "1.2.3.4") [wSess 900 2000000] 7 1000
      "fresh1" (.ok ()) (.ok ⟨"la", "lr"⟩) wRefreshOk (wSess 900 2000000)
      (by decide) (by decide) (by decide)).1 200 "ok" ⟨"newat", "newrt"⟩
      (by decide) (by decide) (by decide) (by decide)⟩

/-- C8 counterexample: the clause that any other non-2xx refresh response
raises the generic upstream-error condition (502) fails at upstream status
503: such a response raises the service-unavailable condition with status 503,
not 502 (it is indistinguishable from a connection failure in the client). -/
theorem refresh_503_response_counterexample :
    refresh_session_tokens (wSess 0 0) (.response 503 "busy" ⟨"x", "y"⟩) 0 =
      .error ⟨503, "Core API service unavailable"⟩ ∧ (503 : Int) ≠ 502 := by
  constructor
  · simp [refresh_session_tokens, CoreAPIClient.refresh]
  · decide

/-- C8 (amended): token-refresh failures surface as mutually distinct
conditions: a Token Service 401 raises the session-expired condition (401); a
connection-level failure raises service-unavailable (503); any other non-2xx
response whose status is not 503 raises the generic upstream-error condition
(502) carrying the upstream body; an upstream 503 response raises
service-unavailable exactly like a connection failure; a connection failure
always surfaces 503 (so never session-expired), and the session-expired
condition arises only from an upstream 401. -/
theorem refresh_error_taxonomy (sess : SessionModel) (now : Int) :
    (∀ msg, refresh_session_tokens sess (.connError msg) now =
        .error ⟨503, "Core API service unavailable"⟩) ∧
    (∀ b t, refresh_session_tokens sess (.response 401 b t) now =
        .error ⟨401, "Session expired. Please refresh the page."⟩) ∧
    (∀ st b t, (st < 200 ∨ 299 < st) → st ≠ 401 → st ≠ 503 →
      refresh_session_tokens sess (.response st b t) now =
        .error ⟨502, "Failed to refresh session: " ++ b⟩) ∧
    (∀ b t, refresh_session_tokens sess (.response 503 b t) now =
        .error ⟨503, "Core API service unavailable"⟩) ∧
    (∀ st b t e, refresh_session_tokens sess (.response st b t) now = .error e →
      e.status_code = 401 → st = 401) := by
  refine ⟨?_, ?_, ?_, ?_, ?_⟩
  · intro msg
    simp [refresh_session_tokens, CoreAPIClient.refresh]
  · intro b t
    simp [refresh_session_tokens, CoreAPIClient.refresh]
  · intro st b t hnon h401 h503
    have h2xx : ¬ (200 ≤ st ∧ st ≤ 299) := by omega
    simp [refresh_session_tokens, CoreAPIClient.refresh, h2xx, h401, h503]
  · intro b t
    simp [refresh_session_tokens, CoreAPIClient.refresh]
  · intro st b t e h he
    by_cases hc : 200 ≤ st ∧ st ≤ 299
    · simp [refresh_session_tokens, CoreAPIClient.refresh, hc] at h
    · by_cases h4 : st = 401
      · exact h4
      · by_cases h5 : st = 503
        · simp [refresh_session_tokens, CoreAPIClient.refresh, hc, h4, h5] at h
          rw [← h] at he
          simp at he
        · simp [refresh_session_tokens, CoreAPIClient.refresh, hc, h4, h5] at h
          rw [← h] at he
          simp at he

/-- Witness for C8 (amended) at upstream status 418: the surfaced condition is
the generic 502 carrying the upstream body. -/
theorem refresh_error_taxonomy_witness :
    refresh_session_tokens (wSess 0 0) (.response 418 "teapot" ⟨"x", "y"⟩) 0 =
      .error ⟨502, "Failed to refresh session: " ++ "teapot"⟩ :=
  (refresh_error_taxonomy (wSess 0 0) 0).2.2.1 418 "teapot" ⟨"x", "y"⟩
    (by decide) (by decide) (by decide)

end Eversaid
